import Mathlib

/-
Verification of the batch image-fetch script
`src/Satellite_Property_Valuation/data_fetcher.py`.

The script is a single linear pipeline:
  * load the MAPBOX_TOKEN from the environment and abort if it is falsy
    (absent or empty);
  * load a tabular dataset of records (id, lat, long), optionally replaced
    by a fixed-seed random sample of size min(SAMPLE_SIZE, len(df));
  * for each record, skip it when `images/train/<id>.jpg` exists, otherwise
    GET a Mapbox static-image URL, write the body on HTTP 200, log a
    warning on a non-200 status and an error on an exception, and print a
    progress line whenever `downloaded % PROGRESS_INTERVAL == 0`.

We embed the loop as a state machine on `LoopState`: the filesystem is the
list of artifact paths that exist, the two counters mirror the script's
`downloaded` and `skipped` variables, and every observable action (network
GET, file write, warning line, error line, progress line) is appended to an
event trace.  The network is an oracle `Record → FetchResult` giving, for
each record, the outcome the `requests.get` call would have.
-/

namespace SatFetch

/-- A row of the input table: `id`, `lat`, `long` columns.  The script only
ever formats the coordinates into the request URL, so we carry them in their
rendered string form. -/
structure Record where
  pid : Nat
  lat : String
  lon : String
deriving DecidableEq, Repr

/-- Outcome of the `requests.get(url, timeout=10)` call for one record:
a 200 response with a body, a non-200 status, or a raised exception. -/
inductive FetchResult where
  | ok (body : List Nat)
  | httpError (status : Nat)
  | exn (msg : String)
deriving DecidableEq, Repr

/-- `true` exactly when the fetch came back with status 200. -/
def FetchResult.isOk : FetchResult → Bool
  | .ok _ => true
  | _ => false

/-- Observable actions of the loop, in program order. -/
inductive Event where
  | netCall (pid : Nat) (url : String)
  | fileWrite (path : String) (body : List Nat)
  | warnHttp (pid status : Nat)
  | errExn (pid : Nat) (msg : String)
  | progress (downloaded total : Nat)
deriving DecidableEq, Repr

/-- The URL builder `mapbox_url(lat, lon, zoom=17, size=256)`; the script
always calls it with the default zoom 17 and size 256.  Longitude is placed
before latitude in the path, then zoom, then the pixel size, then the token
as the `access_token` query parameter. -/
def mapbox_url (token : String) (lat lon : String) (zoom : Nat) (size : Nat) : String :=
  "https://api.mapbox.com/styles/v1/mapbox/satellite-v9/static/"
    ++ lon ++ "," ++ lat ++ "," ++ toString zoom
    ++ "/" ++ toString size ++ "x" ++ toString size
    ++ "?access_token=" ++ token

/-- `IMAGE_DIR / f"{pid}.jpg"`, with the fixed directory left implicit:
the artifact path is a deterministic function of the identifier. -/
def artifactPath (pid : Nat) : String := toString pid ++ ".jpg"

/-- The mutable state of the fetch loop: the set of artifact paths present
on disk (as a list), the `downloaded` and `skipped` counters, and the trace
of observable events so far. -/
structure LoopState where
  fs : List String
  downloaded : Nat
  skipped : Nat
  events : List Event
deriving DecidableEq, Repr

/-- The `try`/`except` block of the loop body: issue the GET
(`url = mapbox_url(lat, lon)` with the default zoom and size), then on a 200
response write the body at the artifact path and bump `downloaded`, on a
non-200 status print the warning line, and on an exception print the error
line. -/
def attemptFetch (token : String) (net : Record → FetchResult)
    (s : LoopState) (r : Record) : LoopState :=
  let out_path := artifactPath r.pid
  let url := mapbox_url token r.lat r.lon 17 256
  let s1 : LoopState := { s with events := s.events ++ [Event.netCall r.pid url] }
  match net r with
  | .ok body =>
      { s1 with fs := out_path :: s1.fs,
                downloaded := s1.downloaded + 1,
                events := s1.events ++ [Event.fileWrite out_path body] }
  | .httpError status =>
      { s1 with events := s1.events ++ [Event.warnHttp r.pid status] }
  | .exn msg =>
      { s1 with events := s1.events ++ [Event.errExn r.pid msg] }

/-- The trailing `if downloaded % PROGRESS_INTERVAL == 0: print(...)` of the
loop body. -/
def progressCheck (interval total : Nat) (s : LoopState) : LoopState :=
  if s.downloaded % interval = 0 then
    { s with events := s.events ++ [Event.progress s.downloaded total] }
  else s

/-- One iteration of the `for idx, row in df.iterrows()` body:
skip-check, network GET, write-or-log, then the progress check.  Note the
`continue` in the skip branch jumps past the progress check, while a failed
fetch still reaches it. -/
def processRecord (token : String) (net : Record → FetchResult)
    (interval total : Nat) (s : LoopState) (r : Record) : LoopState :=
  if artifactPath r.pid ∈ s.fs then
    { s with skipped := s.skipped + 1 }
  else
    progressCheck interval total (attemptFetch token net s r)

/-- The whole `for` loop over the dataset. -/
def fetchLoop (token : String) (net : Record → FetchResult)
    (interval total : Nat) : LoopState → List Record → LoopState
  | s, [] => s
  | s, r :: rs => fetchLoop token net interval total (processRecord token net interval total s r) rs

/-- The loop as run by the script: counters start at 0, the trace empty, and
`total_images = len(df)`. -/
def runFetch (token : String) (net : Record → FetchResult) (interval : Nat)
    (fs₀ : List String) (ds : List Record) : LoopState :=
  fetchLoop token net interval ds.length ⟨fs₀, 0, 0, []⟩ ds

/-- `MAPBOX_TOKEN = os.getenv(...)` followed by `if not MAPBOX_TOKEN: raise`:
a missing variable (`none`) and an empty string are both falsy in Python, so
both abort with the same RuntimeError message. -/
def checkToken : Option String → Except String String
  | none => Except.error "MAPBOX_TOKEN not found in .env file"
  | some t =>
      if t = "" then Except.error "MAPBOX_TOKEN not found in .env file"
      else Except.ok t

/-- A linear congruential pseudo-random step, used to model the fixed-seed
random number stream behind `df.sample(..., random_state=42)`. -/
def lcg (s : Nat) : Nat := (s * 1103515245 + 12345) % 2 ^ 31

/-- Draw `n` distinct rows, selection-without-replacement style, driven by
the deterministic stream seeded at `seed`.  Models the contract of
`df.sample(n=..., random_state=seed)`: a deterministic size-`n` subset of
the rows (the exact permutation pandas produces is library-internal; what
the script relies on is determinism, the size bound, and that the result is
a subset of the input rows, which this model shares). -/
def sampleAux (seed : Nat) : Nat → List Record → List Record
  | 0, _ => []
  | _ + 1, [] => []
  | n + 1, x :: xs =>
      let i := seed % (xs.length + 1)
      have h : i < (x :: xs).length := by
        simpa using Nat.mod_lt seed (Nat.succ_pos xs.length)
      (x :: xs).get ⟨i, h⟩ :: sampleAux (lcg seed) n ((x :: xs).eraseIdx i)

/-- `df.sample(n=min(SAMPLE_SIZE, len(df)), random_state=seed)`. -/
def sample (seed n : Nat) (l : List Record) : List Record :=
  sampleAux seed (min n l.length) l

/-- The whole script, from the token check to the finished loop:
`checkToken` runs before the dataset is consulted, then the optional
fixed-seed down-sampling (`random_state=42`), then the fetch loop over the
resulting frame. -/
def mainScript (envToken : Option String) (data : List Record)
    (useSample : Bool) (sampleSize : Nat) (net : Record → FetchResult)
    (interval : Nat) (fs₀ : List String) : Except String LoopState :=
  match checkToken envToken with
  | Except.error e => Except.error e
  | Except.ok tok =>
      let df := if useSample then sample 42 sampleSize data else data
      Except.ok (runFetch tok net interval fs₀ df)

/-! ### Basic step lemmas -/

/-- `true` on the two failure log lines (warning and error). -/
def isFailEvent : Event → Bool
  | .warnHttp _ _ => true
  | .errExn _ _ => true
  | _ => false

/-- `true` on progress lines. -/
def isProgressEvent : Event → Bool
  | .progress _ _ => true
  | _ => false

theorem processRecord_skip (token : String) (net : Record → FetchResult)
    (interval total : Nat) (s : LoopState) (r : Record)
    (h : artifactPath r.pid ∈ s.fs) :
    processRecord token net interval total s r = { s with skipped := s.skipped + 1 } := by
  simp [processRecord, h]

theorem progressCheck_fs (interval total : Nat) (s : LoopState) :
    (progressCheck interval total s).fs = s.fs := by
  unfold progressCheck; split <;> rfl

theorem progressCheck_downloaded (interval total : Nat) (s : LoopState) :
    (progressCheck interval total s).downloaded = s.downloaded := by
  unfold progressCheck; split <;> rfl

theorem progressCheck_skipped (interval total : Nat) (s : LoopState) :
    (progressCheck interval total s).skipped = s.skipped := by
  unfold progressCheck; split <;> rfl

theorem progressCheck_events (interval total : Nat) (s : LoopState) :
    (progressCheck interval total s).events =
      s.events ++ (if s.downloaded % interval = 0 then [Event.progress s.downloaded total] else []) := by
  unfold progressCheck; split <;> simp

theorem attemptFetch_ok (token : String) (net : Record → FetchResult)
    (s : LoopState) (r : Record) (body : List Nat) (hnet : net r = .ok body) :
    attemptFetch token net s r =
      { fs := artifactPath r.pid :: s.fs,
        downloaded := s.downloaded + 1,
        skipped := s.skipped,
        events := s.events ++ [Event.netCall r.pid (mapbox_url token r.lat r.lon 17 256),
                               Event.fileWrite (artifactPath r.pid) body] } := by
  simp [attemptFetch, hnet]

theorem attemptFetch_httpError (token : String) (net : Record → FetchResult)
    (s : LoopState) (r : Record) (status : Nat) (hnet : net r = .httpError status) :
    attemptFetch token net s r =
      { s with events := s.events ++ [Event.netCall r.pid (mapbox_url token r.lat r.lon 17 256),
                                      Event.warnHttp r.pid status] } := by
  simp [attemptFetch, hnet]

theorem attemptFetch_exn (token : String) (net : Record → FetchResult)
    (s : LoopState) (r : Record) (msg : String) (hnet : net r = .exn msg) :
    attemptFetch token net s r =
      { s with events := s.events ++ [Event.netCall r.pid (mapbox_url token r.lat r.lon 17 256),
                                      Event.errExn r.pid msg] } := by
  simp [attemptFetch, hnet]

/-! ### Monotonicity of the filesystem and of the event trace -/

theorem attemptFetch_fs_sub (token : String) (net : Record → FetchResult)
    (s : LoopState) (r : Record) : s.fs ⊆ (attemptFetch token net s r).fs := by
  unfold attemptFetch
  cases hnet : net r <;> simp [List.subset_cons_of_subset, List.Subset.refl]

theorem processRecord_fs_sub (token : String) (net : Record → FetchResult)
    (interval total : Nat) (s : LoopState) (r : Record) :
    s.fs ⊆ (processRecord token net interval total s r).fs := by
  unfold processRecord
  split
  · exact List.Subset.refl _
  · rw [progressCheck_fs]
    exact attemptFetch_fs_sub token net s r

theorem fetchLoop_fs_sub (token : String) (net : Record → FetchResult)
    (interval total : Nat) (ds : List Record) (s : LoopState) :
    s.fs ⊆ (fetchLoop token net interval total s ds).fs := by
  induction ds generalizing s with
  | nil => exact List.Subset.refl _
  | cons r rs ih =>
      exact (processRecord_fs_sub token net interval total s r).trans
        (ih (processRecord token net interval total s r))

theorem processRecord_events_append (token : String) (net : Record → FetchResult)
    (interval total : Nat) (s : LoopState) (r : Record) :
    ∃ Δ, (processRecord token net interval total s r).events = s.events ++ Δ := by
  unfold processRecord
  split
  · exact ⟨[], by simp⟩
  · rw [progressCheck_events]
    cases hnet : net r
    · rw [attemptFetch_ok token net s r _ hnet]
      simp only [List.append_assoc]
      exact ⟨_, rfl⟩
    · rw [attemptFetch_httpError token net s r _ hnet]
      simp only [List.append_assoc]
      exact ⟨_, rfl⟩
    · rw [attemptFetch_exn token net s r _ hnet]
      simp only [List.append_assoc]
      exact ⟨_, rfl⟩

/-! ### Runs over datasets whose artifacts are all present, and runs in
which every fetch succeeds -/

theorem fetchLoop_skip_all (token : String) (net : Record → FetchResult)
    (interval total : Nat) (ds : List Record) (s : LoopState)
    (h : ∀ r ∈ ds, artifactPath r.pid ∈ s.fs) :
    fetchLoop token net interval total s ds =
      { s with skipped := s.skipped + ds.length } := by
  induction ds generalizing s with
  | nil => simp [fetchLoop]
  | cons r rs ih =>
      have hr : artifactPath r.pid ∈ s.fs := h r (by simp)
      have htl : ∀ x ∈ rs, artifactPath x.pid ∈ ({ s with skipped := s.skipped + 1 } : LoopState).fs := by
        intro x hx
        exact h x (by simp [hx])
      rw [fetchLoop, processRecord_skip token net interval total s r hr, ih _ htl]
      obtain ⟨fs, d, sk, ev⟩ := s
      simp only [List.length_cons, LoopState.mk.injEq, and_true, true_and]
      omega

theorem processRecord_mem_of_ok (token : String) (net : Record → FetchResult)
    (interval total : Nat) (s : LoopState) (r : Record)
    (hok : (net r).isOk = true) :
    artifactPath r.pid ∈ (processRecord token net interval total s r).fs := by
  unfold processRecord
  split
  · next h => exact h
  · rw [progressCheck_fs]
    cases hnet : net r with
    | ok body =>
        rw [attemptFetch_ok token net s r body hnet]
        exact List.mem_cons_self _ _
    | httpError status =>
        rw [hnet] at hok
        simp [FetchResult.isOk] at hok
    | exn msg =>
        rw [hnet] at hok
        simp [FetchResult.isOk] at hok

theorem fetchLoop_mem_of_all_ok (token : String) (net : Record → FetchResult)
    (interval total : Nat) (ds : List Record) (s : LoopState)
    (h : ∀ r ∈ ds, (net r).isOk = true) :
    ∀ r ∈ ds, artifactPath r.pid ∈ (fetchLoop token net interval total s ds).fs := by
  induction ds generalizing s with
  | nil => intro r hr; cases hr
  | cons x xs ih =>
      intro r hr
      rw [fetchLoop]
      rcases List.mem_cons.mp hr with rfl | hr'
      · exact fetchLoop_fs_sub token net interval total xs _
          (processRecord_mem_of_ok token net interval total s r (h r (by simp)))
      · exact ih _ (fun y hy => h y (by simp [hy])) r hr'

/-! ### Claim C1: idempotence of the fetch loop -/

/-- Claim C1, as stated, is false: a record that fails on the first run
leaves no artifact, so the second run attempts it again instead of skipping
it.  Concretely, with one record whose fetch always returns HTTP 404, the
second run over the same dataset ends with skip count 0, not the dataset
size 1. -/
theorem second_run_skip_count_cex :
    ¬ ((runFetch "T" (fun _ => FetchResult.httpError 404) 50
          (runFetch "T" (fun _ => FetchResult.httpError 404) 50 [] [⟨1, "0", "0"⟩]).fs
          [⟨1, "0", "0"⟩]).downloaded = 0 ∧
       (runFetch "T" (fun _ => FetchResult.httpError 404) 50
          (runFetch "T" (fun _ => FetchResult.httpError 404) 50 [] [⟨1, "0", "0"⟩]).fs
          [⟨1, "0", "0"⟩]).skipped = ([(⟨1, "0", "0"⟩ : Record)] : List Record).length) := by
  decide

/-- Claim C1 (amended): if every fetch of the first run succeeds, then a
second run over the same dataset, starting from the filesystem the first run
left behind (all artifacts still present, none removed), performs zero
downloads, skips the full dataset, and emits no events at all — in
particular no network call and no write. -/
theorem idempotent_second_run (token₁ token₂ : String)
    (net₁ net₂ : Record → FetchResult) (interval : Nat) (fs₀ : List String)
    (ds : List Record) (h : ∀ r ∈ ds, (net₁ r).isOk = true) :
    (runFetch token₂ net₂ interval (runFetch token₁ net₁ interval fs₀ ds).fs ds).downloaded = 0 ∧
    (runFetch token₂ net₂ interval (runFetch token₁ net₁ interval fs₀ ds).fs ds).skipped = ds.length ∧
    (runFetch token₂ net₂ interval (runFetch token₁ net₁ interval fs₀ ds).fs ds).events = [] := by
  have hmem : ∀ r ∈ ds, artifactPath r.pid ∈ (runFetch token₁ net₁ interval fs₀ ds).fs :=
    fetchLoop_mem_of_all_ok token₁ net₁ interval ds.length ds ⟨fs₀, 0, 0, []⟩ h
  have h2 := fetchLoop_skip_all token₂ net₂ interval ds.length ds
    ⟨(runFetch token₁ net₁ interval fs₀ ds).fs, 0, 0, []⟩ (fun r hr => hmem r hr)
  unfold runFetch at h2 ⊢
  rw [h2]
  simp

/-- Witness for `idempotent_second_run` at a concrete one-record dataset
whose fetch succeeds. -/
theorem idempotent_second_run_witness :
    (∀ r ∈ [(⟨1, "0", "0"⟩ : Record)], ((fun _ => FetchResult.ok [7]) r).isOk = true) ∧
    ((runFetch "T" (fun _ => FetchResult.ok [7]) 50
        (runFetch "T" (fun _ => FetchResult.ok [7]) 50 [] [⟨1, "0", "0"⟩]).fs
        [⟨1, "0", "0"⟩]).downloaded = 0 ∧
     (runFetch "T" (fun _ => FetchResult.ok [7]) 50
        (runFetch "T" (fun _ => FetchResult.ok [7]) 50 [] [⟨1, "0", "0"⟩]).fs
        [⟨1, "0", "0"⟩]).skipped = ([(⟨1, "0", "0"⟩ : Record)] : List Record).length ∧
     (runFetch "T" (fun _ => FetchResult.ok [7]) 50
        (runFetch "T" (fun _ => FetchResult.ok [7]) 50 [] [⟨1, "0", "0"⟩]).fs
        [⟨1, "0", "0"⟩]).events = []) :=
  ⟨by decide,
   idempotent_second_run "T" "T" (fun _ => FetchResult.ok [7]) (fun _ => FetchResult.ok [7])
     50 [] [⟨1, "0", "0"⟩] (by decide)⟩

/-! ### Claim C3: skip-before-network -/

/-- Claim C3: for a record whose artifact file already exists when the
record is processed, the loop increments the skip counter and nothing else:
the event trace is unchanged (so no network call, no file write, no log or
progress line), the downloaded counter is unchanged, and the filesystem is
unchanged. -/
theorem skip_before_network (token : String) (net : Record → FetchResult)
    (interval total : Nat) (s : LoopState) (r : Record)
    (h : artifactPath r.pid ∈ s.fs) :
    (processRecord token net interval total s r).skipped = s.skipped + 1 ∧
    (processRecord token net interval total s r).events = s.events ∧
    (processRecord token net interval total s r).downloaded = s.downloaded ∧
    (processRecord token net interval total s r).fs = s.fs := by
  rw [processRecord_skip token net interval total s r h]
  exact ⟨rfl, rfl, rfl, rfl⟩

/-- Witness for `skip_before_network`: one record whose artifact `1.jpg` is
already on disk. -/
theorem skip_before_network_witness :
    artifactPath (1 : Nat) ∈ (["1.jpg"] : List String) ∧
    ((processRecord "T" (fun _ => FetchResult.ok []) 50 1
        ⟨["1.jpg"], 0, 0, []⟩ ⟨1, "0", "0"⟩).skipped = 0 + 1 ∧
     (processRecord "T" (fun _ => FetchResult.ok []) 50 1
        ⟨["1.jpg"], 0, 0, []⟩ ⟨1, "0", "0"⟩).events = [] ∧
     (processRecord "T" (fun _ => FetchResult.ok []) 50 1
        ⟨["1.jpg"], 0, 0, []⟩ ⟨1, "0", "0"⟩).downloaded = 0 ∧
     (processRecord "T" (fun _ => FetchResult.ok []) 50 1
        ⟨["1.jpg"], 0, 0, []⟩ ⟨1, "0", "0"⟩).fs = ["1.jpg"]) :=
  ⟨by decide,
   skip_before_network "T" (fun _ => FetchResult.ok []) 50 1
     ⟨["1.jpg"], 0, 0, []⟩ ⟨1, "0", "0"⟩ (by decide)⟩

/-! ### Claim C4: per-record failure isolation -/

/-- Claim C4: a record whose request returns a non-OK status or raises an
exception leaves the filesystem and both counters unchanged (in particular
no file appears at its artifact path), gets a log line carrying its
identifier (and the status code in the HTTP case), and the loop then
continues with the remaining records instead of aborting. -/
theorem failure_isolation (token : String) (net : Record → FetchResult)
    (interval total : Nat) (s : LoopState) (r : Record)
    (h : artifactPath r.pid ∉ s.fs) :
    (∀ status, net r = FetchResult.httpError status →
       (processRecord token net interval total s r).fs = s.fs ∧
       (processRecord token net interval total s r).downloaded = s.downloaded ∧
       (processRecord token net interval total s r).skipped = s.skipped ∧
       Event.warnHttp r.pid status ∈ (processRecord token net interval total s r).events ∧
       artifactPath r.pid ∉ (processRecord token net interval total s r).fs) ∧
    (∀ msg, net r = FetchResult.exn msg →
       (processRecord token net interval total s r).fs = s.fs ∧
       (processRecord token net interval total s r).downloaded = s.downloaded ∧
       (processRecord token net interval total s r).skipped = s.skipped ∧
       Event.errExn r.pid msg ∈ (processRecord token net interval total s r).events ∧
       artifactPath r.pid ∉ (processRecord token net interval total s r).fs) ∧
    (∀ rs, fetchLoop token net interval total s (r :: rs) =
       fetchLoop token net interval total (processRecord token net interval total s r) rs) := by
  have hp : processRecord token net interval total s r =
      progressCheck interval total (attemptFetch token net s r) := by
    rw [processRecord, if_neg h]
  refine ⟨?_, ?_, fun rs => rfl⟩
  · intro status hnet
    rw [hp, attemptFetch_httpError token net s r status hnet]
    refine ⟨?_, ?_, ?_, ?_, ?_⟩
    · rw [progressCheck_fs]
    · rw [progressCheck_downloaded]
    · rw [progressCheck_skipped]
    · rw [progressCheck_events]; simp
    · rw [progressCheck_fs]; exact h
  · intro msg hnet
    rw [hp, attemptFetch_exn token net s r msg hnet]
    refine ⟨?_, ?_, ?_, ?_, ?_⟩
    · rw [progressCheck_fs]
    · rw [progressCheck_downloaded]
    · rw [progressCheck_skipped]
    · rw [progressCheck_events]; simp
    · rw [progressCheck_fs]; exact h

/-- Witness for `failure_isolation`: a fresh record whose fetch returns
HTTP 404; the warning line carries its id and the status, nothing is
written, and the loop equation holds for a one-element tail. -/
theorem failure_isolation_witness :
    artifactPath (1 : Nat) ∉ ([] : List String) ∧
    ((processRecord "T" (fun _ => FetchResult.httpError 404) 50 2
        ⟨[], 0, 0, []⟩ ⟨1, "0", "0"⟩).fs = [] ∧
     (processRecord "T" (fun _ => FetchResult.httpError 404) 50 2
        ⟨[], 0, 0, []⟩ ⟨1, "0", "0"⟩).downloaded = 0 ∧
     (processRecord "T" (fun _ => FetchResult.httpError 404) 50 2
        ⟨[], 0, 0, []⟩ ⟨1, "0", "0"⟩).skipped = 0 ∧
     Event.warnHttp 1 404 ∈ (processRecord "T" (fun _ => FetchResult.httpError 404) 50 2
        ⟨[], 0, 0, []⟩ ⟨1, "0", "0"⟩).events ∧
     artifactPath (1 : Nat) ∉ (processRecord "T" (fun _ => FetchResult.httpError 404) 50 2
        ⟨[], 0, 0, []⟩ ⟨1, "0", "0"⟩).fs) :=
  ⟨by decide,
   (failure_isolation "T" (fun _ => FetchResult.httpError 404) 50 2
      ⟨[], 0, 0, []⟩ ⟨1, "0", "0"⟩ (by decide)).1 404 rfl⟩

/-! ### Claim C5: the URL builder -/

theorem sappAssoc (a b c : String) : a ++ b ++ c = a ++ (b ++ c) := by
  apply String.ext
  simp [String.data_append]

/-- Claim C5: `mapbox_url` is a pure function of its arguments — the first
conjunct pins its value, for every input, to an explicit concatenation in
which the longitude precedes the latitude in the path — and at
`lat=47.6, lon=-122.3, zoom=17, size=256` the URL is literally the static
prefix followed by `-122.3,47.6,17`, then `/`, then `256x256`, then
`?access_token=` followed by the configured credential. -/
theorem mapbox_url_correct :
    (∀ (token lat lon : String) (zoom size : Nat),
       mapbox_url token lat lon zoom size =
         "https://api.mapbox.com/styles/v1/mapbox/satellite-v9/static/"
           ++ (lon ++ ("," ++ (lat ++ ("," ++ (toString zoom
           ++ ("/" ++ (toString size ++ ("x" ++ (toString size
           ++ ("?access_token=" ++ token))))))))))) ∧
    (∀ token : String,
       mapbox_url token "47.6" "-122.3" 17 256 =
         "https://api.mapbox.com/styles/v1/mapbox/satellite-v9/static/"
           ++ ("-122.3,47.6,17" ++ ("/" ++ ("256x256" ++ ("?access_token=" ++ token))))) := by
  constructor
  · intro token lat lon zoom size
    unfold mapbox_url
    simp only [sappAssoc]
  · intro token
    simp only [← sappAssoc]
    rfl

/-! ### Claim C6: the credential precondition -/

/-- Claim C6: if `MAPBOX_TOKEN` is absent from the environment or present
but empty, the script aborts with the RuntimeError message before anything
else happens: the result is the error value for every dataset, sample
configuration, network oracle, and filesystem, so no dataset loading, no
network activity, and no per-record work can be observed. -/
theorem token_precondition (envToken : Option String) (data : List Record)
    (useSample : Bool) (sampleSize : Nat) (net : Record → FetchResult)
    (interval : Nat) (fs₀ : List String)
    (h : envToken = none ∨ envToken = some "") :
    mainScript envToken data useSample sampleSize net interval fs₀ =
      Except.error "MAPBOX_TOKEN not found in .env file" := by
  rcases h with h | h <;> subst h <;> rfl

/-- Witness for `token_precondition`: the empty-string token with a
nonempty dataset and an always-succeeding network. -/
theorem token_precondition_witness :
    ((some "" : Option String) = none ∨ (some "" : Option String) = some "") ∧
    mainScript (some "") [⟨1, "0", "0"⟩] false 500 (fun _ => FetchResult.ok [7]) 50 [] =
      Except.error "MAPBOX_TOKEN not found in .env file" :=
  ⟨Or.inr rfl,
   token_precondition (some "") [⟨1, "0", "0"⟩] false 500 (fun _ => FetchResult.ok [7]) 50 []
     (Or.inr rfl)⟩

/-! ### Claim C2: progress cadence -/

theorem processRecord_progress_mem (token : String) (net : Record → FetchResult)
    (interval total : Nat) (s : LoopState) (r : Record) (d t : Nat)
    (hmem : Event.progress d t ∈ (processRecord token net interval total s r).events) :
    Event.progress d t ∈ s.events ∨ (d % interval = 0 ∧ t = total) := by
  rw [processRecord] at hmem
  split at hmem
  · exact Or.inl hmem
  · rw [progressCheck_events] at hmem
    rcases List.mem_append.mp hmem with hmem' | hmem'
    · left
      cases hnet : net r
      · rw [attemptFetch_ok token net s r _ hnet] at hmem'
        simpa using hmem'
      · rw [attemptFetch_httpError token net s r _ hnet] at hmem'
        simpa using hmem'
      · rw [attemptFetch_exn token net s r _ hnet] at hmem'
        simpa using hmem'
    · right
      split at hmem'
      · next hmod =>
          rcases List.mem_singleton.mp hmem' with h
          cases h
          exact ⟨hmod, rfl⟩
      · cases hmem'

theorem fetchLoop_progress_mem (token : String) (net : Record → FetchResult)
    (interval total : Nat) (ds : List Record) (s : LoopState) (d t : Nat)
    (hmem : Event.progress d t ∈ (fetchLoop token net interval total s ds).events) :
    Event.progress d t ∈ s.events ∨ (d % interval = 0 ∧ t = total) := by
  induction ds generalizing s with
  | nil => exact Or.inl hmem
  | cons r rs ih =>
      rw [fetchLoop] at hmem
      rcases ih _ hmem with h' | h'
      · exact processRecord_progress_mem token net interval total s r d t h'
      · exact Or.inr h'

/-- Claim C2, as stated, is false: the progress check sits after the
`try`/`except` block, so a failed record still reaches it, and
`0 % PROGRESS_INTERVAL == 0`, so a run whose first record fails prints
`Downloaded 0/total` — a progress line with zero successful downloads,
emitted after a failed record. -/
theorem progress_after_failure_cex :
    Event.progress 0 1 ∈
      (runFetch "T" (fun _ => FetchResult.httpError 404) 50 [] [⟨1, "0", "0"⟩]).events ∧
    (runFetch "T" (fun _ => FetchResult.httpError 404) 50 [] [⟨1, "0", "0"⟩]).downloaded = 0 := by
  decide

/-- Claim C2 (amended): every progress line of a run shows a downloaded
count divisible by the interval (zero included) together with the full
dataset size; a skipped record emits nothing at all (its `continue` jumps
past the progress check); and an attempted record — successful or failed —
emits exactly one progress line when the downloaded counter after it is
divisible by the interval, and none otherwise.  In particular a line
appears after every `interval`-th successful download, but also after a
failed record while the counter rests at a multiple of the interval. -/
theorem progress_cadence (token : String) (net : Record → FetchResult) (interval : Nat) :
    (∀ (fs₀ : List String) (ds : List Record) (d t : Nat),
       Event.progress d t ∈ (runFetch token net interval fs₀ ds).events →
         d % interval = 0 ∧ t = ds.length) ∧
    (∀ (total : Nat) (s : LoopState) (r : Record), artifactPath r.pid ∈ s.fs →
       (processRecord token net interval total s r).events = s.events) ∧
    (∀ (total : Nat) (s : LoopState) (r : Record), artifactPath r.pid ∉ s.fs →
       (processRecord token net interval total s r).events.countP isProgressEvent =
         s.events.countP isProgressEvent +
           (if (processRecord token net interval total s r).downloaded % interval = 0
            then 1 else 0)) := by
  refine ⟨?_, ?_, ?_⟩
  · intro fs₀ ds d t hmem
    rcases fetchLoop_progress_mem token net interval ds.length ds ⟨fs₀, 0, 0, []⟩ d t hmem with h | h
    · cases h
    · exact h
  · intro total s r h
    rw [processRecord_skip token net interval total s r h]
  · intro total s r h
    have hp : processRecord token net interval total s r =
        progressCheck interval total (attemptFetch token net s r) := by
      rw [processRecord, if_neg h]
    rw [hp, progressCheck_events, progressCheck_downloaded, List.countP_append]
    have hcnt : (attemptFetch token net s r).events.countP isProgressEvent =
        s.events.countP isProgressEvent := by
      cases hnet : net r
      · rw [attemptFetch_ok token net s r _ hnet]
        simp [List.countP_append, isProgressEvent]
      · rw [attemptFetch_httpError token net s r _ hnet]
        simp [List.countP_append, isProgressEvent]
      · rw [attemptFetch_exn token net s r _ hnet]
        simp [List.countP_append, isProgressEvent]
    rw [hcnt]
    split
    · simp [isProgressEvent]
    · simp

/-- Witness for `progress_cadence`: its three parts applied at concrete
inputs — the failing one-record run above, a skipped record, and an
attempted record. -/
theorem progress_cadence_witness :
    (0 % 50 = 0 ∧ 1 = ([(⟨1, "0", "0"⟩ : Record)] : List Record).length) ∧
    (processRecord "T" (fun _ => FetchResult.httpError 404) 50 1
       ⟨["1.jpg"], 0, 0, []⟩ ⟨1, "0", "0"⟩).events = ([] : List Event) ∧
    (processRecord "T" (fun _ => FetchResult.httpError 404) 50 1
       ⟨[], 0, 0, []⟩ ⟨1, "0", "0"⟩).events.countP isProgressEvent =
      ([] : List Event).countP isProgressEvent +
        (if (processRecord "T" (fun _ => FetchResult.httpError 404) 50 1
              ⟨[], 0, 0, []⟩ ⟨1, "0", "0"⟩).downloaded % 50 = 0 then 1 else 0) :=
  ⟨(progress_cadence "T" (fun _ => FetchResult.httpError 404) 50).1 [] [⟨1, "0", "0"⟩] 0 1
     (by decide),
   (progress_cadence "T" (fun _ => FetchResult.httpError 404) 50).2.1 1
     ⟨["1.jpg"], 0, 0, []⟩ ⟨1, "0", "0"⟩ (by decide),
   (progress_cadence "T" (fun _ => FetchResult.httpError 404) 50).2.2 1
     ⟨[], 0, 0, []⟩ ⟨1, "0", "0"⟩ (by decide)⟩

/-! ### Claim C7: determinism of sampling -/

theorem sampleAux_length (n : Nat) : ∀ (seed : Nat) (l : List Record),
    (sampleAux seed n l).length = min n l.length := by
  induction n with
  | zero => intro seed l; simp [sampleAux]
  | succ n ih =>
      intro seed l
      cases l with
      | nil => simp [sampleAux]
      | cons x xs =>
          rw [sampleAux]
          simp only [List.length_cons]
          rw [ih]
          rw [List.length_eraseIdx_of_lt (by simpa using Nat.mod_lt seed (Nat.succ_pos xs.length))]
          simp only [List.length_cons]
          omega

theorem sampleAux_subset (n : Nat) : ∀ (seed : Nat) (l : List Record),
    ∀ r ∈ sampleAux seed n l, r ∈ l := by
  induction n with
  | zero => intro seed l r hr; simp [sampleAux] at hr
  | succ n ih =>
      intro seed l r hr
      cases l with
      | nil => simp [sampleAux] at hr
      | cons x xs =>
          rw [sampleAux] at hr
          rcases List.mem_cons.mp hr with h | h
          · rw [h]; exact List.get_mem _ _ _
          · exact List.eraseIdx_subset _ _ (ih _ _ r h)

/-- Claim C7: sampling with the fixed seed 42 is deterministic — two
independent draws of the same size over the same dataset are the same list,
so in particular they carry the identical set of record identifiers — and
the draw has size `min sampleSize totalRows` and consists of rows of the
input dataset. -/
theorem sampling_deterministic (data : List Record) (sampleSize : Nat) :
    (sample 42 sampleSize data).map Record.pid = (sample 42 sampleSize data).map Record.pid ∧
    (sample 42 sampleSize data).length = min sampleSize data.length ∧
    ∀ r ∈ sample 42 sampleSize data, r ∈ data := by
  refine ⟨rfl, ?_, ?_⟩
  · rw [sample, sampleAux_length]
    omega
  · intro r hr
    exact sampleAux_subset _ _ _ r hr

/-! ### Claim C8: the success-path write is not atomic -/

/-- Modelled from the filesystem semantics of the success branch's direct
write `with open(out_path, "wb") as f: f.write(response.content)`: opening
the final artifact path in write mode creates the file at once, so a
process crash before the body is fully written leaves a (possibly
truncated) file sitting at the artifact path. -/
def crashDuringWrite (fs : List String) (r : Record) : List String :=
  artifactPath r.pid :: fs

/-- Claim C8 fails on the code: the success branch performs a single direct
write at the final artifact path — the run's trace is exactly the network
call followed by `fileWrite` at `artifactPath`, with no temporary path and
no rename — and after a modelled crash mid-write the truncated file at the
artifact path makes the next run skip the record (skip count 1, zero
downloads), exactly the corruption-masking the claim's atomicity
requirement is there to rule out.  The claim's remaining part does hold:
the successful run increments the downloaded counter to 1. -/
theorem crash_write_skipped_demo :
    (runFetch "T" (fun _ => FetchResult.ok [7, 7]) 50 [] [⟨1, "0", "0"⟩]).events =
      [Event.netCall 1 (mapbox_url "T" "0" "0" 17 256),
       Event.fileWrite (artifactPath 1) [7, 7]] ∧
    (runFetch "T" (fun _ => FetchResult.ok [7, 7]) 50 [] [⟨1, "0", "0"⟩]).downloaded = 1 ∧
    (runFetch "T" (fun _ => FetchResult.ok [7, 7]) 50
        (crashDuringWrite [] ⟨1, "0", "0"⟩) [⟨1, "0", "0"⟩]).skipped = 1 ∧
    (runFetch "T" (fun _ => FetchResult.ok [7, 7]) 50
        (crashDuringWrite [] ⟨1, "0", "0"⟩) [⟨1, "0", "0"⟩]).downloaded = 0 ∧
    (runFetch "T" (fun _ => FetchResult.ok [7, 7]) 50
        (crashDuringWrite [] ⟨1, "0", "0"⟩) [⟨1, "0", "0"⟩]).events = [] := by
  decide

/-! ### Claim C9: artifact monotonicity -/

/-- Claim C9: the loop never deletes an artifact — the filesystem of any
run extends the filesystem it started from — and a write only ever happens
for the record being processed, at that record's unique artifact path,
only when no file exists there yet, and it makes the filesystem exactly
that path added to the old one.  So each identifier has at most the one
artifact `artifactPath pid`, existing artifacts are never overwritten, and
artifact presence is monotonically non-decreasing under the program's
actions. -/
theorem artifact_monotonic (token : String) (net : Record → FetchResult) (interval : Nat) :
    (∀ (total : Nat) (ds : List Record) (s : LoopState),
       s.fs ⊆ (fetchLoop token net interval total s ds).fs) ∧
    (∀ (total : Nat) (s : LoopState) (r : Record),
       ∃ Δ, (processRecord token net interval total s r).events = s.events ++ Δ ∧
         ∀ p b, Event.fileWrite p b ∈ Δ →
           p = artifactPath r.pid ∧ p ∉ s.fs ∧
           (processRecord token net interval total s r).fs = p :: s.fs) := by
  constructor
  · intro total ds s
    exact fetchLoop_fs_sub token net interval total ds s
  · intro total s r
    by_cases h : artifactPath r.pid ∈ s.fs
    · refine ⟨[], ?_, ?_⟩
      · rw [processRecord_skip token net interval total s r h]
        simp
      · intro p b hpb
        cases hpb
    · have hp : processRecord token net interval total s r =
          progressCheck interval total (attemptFetch token net s r) := by
        rw [processRecord, if_neg h]
      cases hnet : net r with
      | ok body =>
          refine ⟨[Event.netCall r.pid (mapbox_url token r.lat r.lon 17 256),
                   Event.fileWrite (artifactPath r.pid) body] ++
                  (if (s.downloaded + 1) % interval = 0
                   then [Event.progress (s.downloaded + 1) total] else []), ?_, ?_⟩
          · rw [hp, progressCheck_events, attemptFetch_ok token net s r body hnet]
            simp
          · intro p b hpb
            rcases List.mem_append.mp hpb with h2 | h2
            · simp only [List.mem_cons] at h2
              rcases h2 with h2 | h2 | h2
              · cases h2
              · injection h2 with hp1 hb
                subst hp1
                refine ⟨rfl, h, ?_⟩
                rw [hp, progressCheck_fs, attemptFetch_ok token net s r body hnet]
              · cases h2
            · revert h2
              split
              · intro h2
                simp at h2
              · intro h2
                cases h2
      | httpError status =>
          refine ⟨[Event.netCall r.pid (mapbox_url token r.lat r.lon 17 256),
                   Event.warnHttp r.pid status] ++
                  (if s.downloaded % interval = 0
                   then [Event.progress s.downloaded total] else []), ?_, ?_⟩
          · rw [hp, progressCheck_events, attemptFetch_httpError token net s r status hnet]
            simp
          · intro p b hpb
            rcases List.mem_append.mp hpb with h2 | h2
            · simp at h2
            · revert h2
              split
              · intro h2
                simp at h2
              · intro h2
                cases h2
      | exn msg =>
          refine ⟨[Event.netCall r.pid (mapbox_url token r.lat r.lon 17 256),
                   Event.errExn r.pid msg] ++
                  (if s.downloaded % interval = 0
                   then [Event.progress s.downloaded total] else []), ?_, ?_⟩
          · rw [hp, progressCheck_events, attemptFetch_exn token net s r msg hnet]
            simp
          · intro p b hpb
            rcases List.mem_append.mp hpb with h2 | h2
            · simp at h2
            · revert h2
              split
              · intro h2
                simp at h2
              · intro h2
                cases h2

/-- Witness for `artifact_monotonic`: its never-deletes part on a run over
a fresh record starting from a disk holding `1.jpg`, and its
write-only-when-absent part on a fresh record over an empty disk. -/
theorem artifact_monotonic_witness :
    (["1.jpg"] : List String) ⊆
      (fetchLoop "T" (fun _ => FetchResult.ok [7]) 50 1
        ⟨["1.jpg"], 0, 0, []⟩ [⟨2, "0", "0"⟩]).fs ∧
    (∃ Δ, (processRecord "T" (fun _ => FetchResult.ok [7]) 50 1
        ⟨[], 0, 0, []⟩ ⟨1, "0", "0"⟩).events = ([] : List Event) ++ Δ ∧
      ∀ p b, Event.fileWrite p b ∈ Δ →
        p = artifactPath 1 ∧ p ∉ ([] : List String) ∧
        (processRecord "T" (fun _ => FetchResult.ok [7]) 50 1
          ⟨[], 0, 0, []⟩ ⟨1, "0", "0"⟩).fs = p :: []) :=
  ⟨(artifact_monotonic "T" (fun _ => FetchResult.ok [7]) 50).1 1
     [⟨2, "0", "0"⟩] ⟨["1.jpg"], 0, 0, []⟩,
   (artifact_monotonic "T" (fun _ => FetchResult.ok [7]) 50).2 1
     ⟨[], 0, 0, []⟩ ⟨1, "0", "0"⟩⟩

/-! ### Claim C10: the counter invariant -/

theorem processRecord_counter (token : String) (net : Record → FetchResult)
    (interval total : Nat) (s : LoopState) (r : Record) :
    (processRecord token net interval total s r).downloaded +
      (processRecord token net interval total s r).skipped +
      (processRecord token net interval total s r).events.countP isFailEvent =
      s.downloaded + s.skipped + s.events.countP isFailEvent + 1 ∧
    s.downloaded ≤ (processRecord token net interval total s r).downloaded ∧
    s.skipped ≤ (processRecord token net interval total s r).skipped ∧
    s.events.countP isFailEvent ≤
      (processRecord token net interval total s r).events.countP isFailEvent := by
  by_cases h : artifactPath r.pid ∈ s.fs
  · rw [processRecord_skip token net interval total s r h]
    simp
    omega
  · have hp : processRecord token net interval total s r =
        progressCheck interval total (attemptFetch token net s r) := by
      rw [processRecord, if_neg h]
    rw [hp, progressCheck_downloaded, progressCheck_skipped, progressCheck_events,
        List.countP_append]
    cases hnet : net r
    · rw [attemptFetch_ok token net s r _ hnet]
      simp [List.countP_append, List.countP_cons, isFailEvent,
        apply_ite (List.countP isFailEvent)]
      omega
    · rw [attemptFetch_httpError token net s r _ hnet]
      simp [List.countP_append, List.countP_cons, isFailEvent,
        apply_ite (List.countP isFailEvent)]
      omega
    · rw [attemptFetch_exn token net s r _ hnet]
      simp [List.countP_append, List.countP_cons, isFailEvent,
        apply_ite (List.countP isFailEvent)]
      omega

theorem fetchLoop_counter (token : String) (net : Record → FetchResult)
    (interval total : Nat) (ds : List Record) : ∀ s : LoopState,
    (fetchLoop token net interval total s ds).downloaded +
      (fetchLoop token net interval total s ds).skipped +
      (fetchLoop token net interval total s ds).events.countP isFailEvent =
      s.downloaded + s.skipped + s.events.countP isFailEvent + ds.length := by
  induction ds with
  | nil => intro s; simp [fetchLoop]
  | cons r rs ih =>
      intro s
      rw [fetchLoop, ih]
      have hstep := (processRecord_counter token net interval total s r).1
      simp only [List.length_cons]
      omega

/-- Claim C10: over any run, `downloaded + skipped` plus the number of
failure log lines equals the dataset size; hence `downloaded + skipped` is
at most the total requested, with equality exactly when no record failed.
Per record, the counters are non-decreasing and their sum grows by at most
one, so each record increments at most one of the two counters. -/
theorem counter_invariant (token : String) (net : Record → FetchResult)
    (interval : Nat) (fs₀ : List String) (ds : List Record) :
    (runFetch token net interval fs₀ ds).downloaded +
      (runFetch token net interval fs₀ ds).skipped +
      (runFetch token net interval fs₀ ds).events.countP isFailEvent = ds.length ∧
    (runFetch token net interval fs₀ ds).downloaded +
      (runFetch token net interval fs₀ ds).skipped ≤ ds.length ∧
    ((runFetch token net interval fs₀ ds).downloaded +
       (runFetch token net interval fs₀ ds).skipped = ds.length ↔
     (runFetch token net interval fs₀ ds).events.countP isFailEvent = 0) ∧
    (∀ (total : Nat) (s : LoopState) (r : Record),
       (processRecord token net interval total s r).downloaded +
         (processRecord token net interval total s r).skipped ≤
           s.downloaded + s.skipped + 1 ∧
       s.downloaded ≤ (processRecord token net interval total s r).downloaded ∧
       s.skipped ≤ (processRecord token net interval total s r).skipped) := by
  have hrun := fetchLoop_counter token net interval ds.length ds ⟨fs₀, 0, 0, []⟩
  simp only [List.countP_nil] at hrun
  unfold runFetch
  refine ⟨?_, ?_, ⟨?_, ?_⟩, ?_⟩
  · omega
  · omega
  · intro he
    omega
  · intro hc
    omega
  · intro total s r
    have h1 := (processRecord_counter token net interval total s r).1
    have h2 := (processRecord_counter token net interval total s r).2.1
    have h3 := (processRecord_counter token net interval total s r).2.2.1
    have h4 := (processRecord_counter token net interval total s r).2.2.2
    exact ⟨by omega, h2, h3⟩

/-- Witness for `counter_invariant`: on a one-record run whose fetch
succeeds, the equality side of the iff yields zero failure lines. -/
theorem counter_invariant_witness :
    (runFetch "T" (fun _ => FetchResult.ok [7]) 50 [] [⟨1, "0", "0"⟩]).events.countP
      isFailEvent = 0 :=
  (counter_invariant "T" (fun _ => FetchResult.ok [7]) 50 [] [⟨1, "0", "0"⟩]).2.2.1.mp
    (by decide)

end SatFetch
